import Mathlib

/-!
Verification of the market-statistics and time-windowed trade-aggregation
pipeline of the TradingBot dashboard.

Shallow embedding conventions:
* A `Trade` carries its values already parsed: the upstream JSON holds
  `timestamp` as an ISO string and `price`/`volume` as numeric strings;
  here `timestamp` models `new Date(trade.timestamp).getTime()` (integer
  epoch milliseconds) and `price`/`volume` model the `parseFloat` results
  as exact rationals.
* The IEEE-754 special values of JavaScript, which arise in this code only from
  the division in `priceChangePercent24h`, are modelled by `JSNum`
  (finite rational, positive/negative infinity, or NaN).  Rounding of
  finite values is not modelled; finite arithmetic is exact.
* `Array.prototype.sort` with a consistent comparator is a stable sort,
  so it is embedded as `List.insertionSort` (stable) with the
  corresponding non-strict relation.
-/

/-- A single executed trade as consumed by the dashboard
(`tradeResponse.trades` elements, fields `timestamp`, `price`, `volume`,
`is_buy`), with values already parsed as described in the file header. -/
structure Trade where
  timestamp : ℤ
  price : ℚ
  volume : ℚ
  isBuy : Bool
deriving DecidableEq

/-- Placeholder trade used only to give totality to head/last projections
that the source applies to lists it has already checked to be non-empty. -/
def defaultTrade : Trade := { timestamp := 0, price := 0, volume := 0, isBuy := false }

/-- A JavaScript number outcome: finite (exact rational), `Infinity`,
`-Infinity`, or `NaN`. -/
inductive JSNum where
  | fin (q : ℚ)
  | posInf
  | negInf
  | nan
deriving DecidableEq

/-- JavaScript division of two finite numbers: finite quotient when the
divisor is nonzero; `±Infinity` or `NaN` (for `0/0`) when it is zero. -/
def jsDiv (a b : ℚ) : JSNum :=
  if b = 0 then
    if 0 < a then JSNum.posInf
    else if a < 0 then JSNum.negInf
    else JSNum.nan
  else JSNum.fin (a / b)

/-- JavaScript multiplication by the positive finite constant `100`
(`Infinity * 100 = Infinity`, `NaN * 100 = NaN`). -/
def jsMul100 : JSNum → JSNum
  | JSNum.fin q => JSNum.fin (q * 100)
  | JSNum.posInf => JSNum.posInf
  | JSNum.negInf => JSNum.negInf
  | JSNum.nan => JSNum.nan

/-- Comparator relation of `trades.sort((a, b) => dateB.getTime() - dateA.getTime())`
(part_000 lines 83-87): newest first. -/
def descByTime (a b : Trade) : Prop := b.timestamp ≤ a.timestamp

/-- Comparator relation of `trades.sort((a, b) => dateA.getTime() - dateB.getTime())`
(part_000 lines 144-149): oldest first. -/
def ascByTime (a b : Trade) : Prop := a.timestamp ≤ b.timestamp

/-- Strict version of `descByTime`; holds between all adjacent elements of a
descending sort when timestamps are pairwise distinct. -/
def strictDescByTime (a b : Trade) : Prop := b.timestamp < a.timestamp

instance : DecidableRel descByTime :=
  fun a b => inferInstanceAs (Decidable (b.timestamp ≤ a.timestamp))

instance : DecidableRel ascByTime :=
  fun a b => inferInstanceAs (Decidable (a.timestamp ≤ b.timestamp))

instance : IsTotal Trade descByTime := ⟨fun a b => le_total b.timestamp a.timestamp⟩

instance : IsTrans Trade descByTime := ⟨fun _ _ _ hab hbc => le_trans hbc hab⟩

instance : IsTotal Trade ascByTime := ⟨fun a b => le_total a.timestamp b.timestamp⟩

instance : IsTrans Trade ascByTime := ⟨fun _ _ _ hab hbc => le_trans hab hbc⟩

instance : IsAntisymm Trade strictDescByTime :=
  ⟨fun _ _ h h' => absurd (h.trans h') (lt_irrefl _)⟩

/-- `[...trades].sort((a, b) => dateB.getTime() - dateA.getTime())`:
stable sort, newest first (part_000 lines 83-87). -/
def sortDesc (trades : List Trade) : List Trade := trades.insertionSort descByTime

/-- `[...trades].sort((a, b) => dateA.getTime() - dateB.getTime())`:
stable sort, oldest first (part_000 lines 144-149). -/
def sortAsc (trades : List Trade) : List Trade := trades.insertionSort ascByTime

/-- The derived market statistics record (`marketStats` state, part_000
lines 69-75 and 103-109).  `priceChangePercent24h` is a `JSNum` because the
division in the source can produce IEEE-754 special values. -/
structure MarketStats where
  volume24h : ℚ
  priceChange24h : ℚ
  priceChangePercent24h : JSNum
  high24h : ℚ
  low24h : ℚ
deriving DecidableEq

/-- `calculateMarketStats` (part_000 lines 79-110).  Returns `none` for the
bare `return;` of the source on an empty input (no state update); otherwise the
stats computed from the descending-sorted copy of the trades. -/
def calculateMarketStats (trades : List Trade) : Option MarketStats :=
  if trades.isEmpty then none
  else
    let sortedTrades := sortDesc trades
    let volume24h := (sortedTrades.map Trade.volume).sum
    let prices := sortedTrades.map Trade.price
    let high24h := prices.max?.getD 0
    let low24h := prices.min?.getD 0
    let latestPrice := (sortedTrades.headD defaultTrade).price
    let earliestPrice := (sortedTrades.getLastD defaultTrade).price
    let priceChange24h := latestPrice - earliestPrice
    let priceChangePercent24h := jsMul100 (jsDiv priceChange24h earliestPrice)
    some { volume24h := volume24h, priceChange24h := priceChange24h,
           priceChangePercent24h := priceChangePercent24h,
           high24h := high24h, low24h := low24h }

/-- The `earliestPrice` selected by `calculateMarketStats` (part_000
line 99): the price of the last element of the descending-sorted trades,
i.e. of the chronologically earliest trade. -/
def earliestPriceOf (trades : List Trade) : ℚ :=
  ((sortDesc trades).getLastD defaultTrade).price

/-- A point of the price chart (part_000 lines 152-156).  `time` is the
underlying instant of the trade; the source renders it with
`toLocaleString()` for display, which we do not model. -/
structure ChartPoint where
  time : ℤ
  price : ℚ
  volume : ℚ
deriving DecidableEq

/-- The chart-series construction of `loadData` (part_000 lines 142-158):
sort trades ascending by timestamp, then map each to a `ChartPoint`.
The spec names this pipeline `buildSeries`. -/
def buildSeries (trades : List Trade) : List ChartPoint :=
  (sortAsc trades).map fun trade =>
    { time := trade.timestamp, price := trade.price, volume := trade.volume }

/-- JS `timeWindow.replace('h', '')` (part_000 line 123): `String.replace`
with a string pattern removes only the first occurrence. -/
def replaceFirstH : List Char → List Char
  | [] => []
  | c :: cs => if c = 'h' then cs else c :: replaceFirstH cs

/-- JS `parseInt` restricted to the shapes reaching it here: parses a maximal
run of leading decimal digits; `none` models the `NaN` result when the string
has no leading digit. -/
def parseIntJS (cs : List Char) : Option ℕ :=
  let digits := cs.takeWhile Char.isDigit
  if digits.isEmpty then none
  else some (digits.foldl (fun acc c => 10 * acc + (c.toNat - '0'.toNat)) 0)

/-- The time-window resolution inlined in `loadData` (part_000 lines 121-128):
`hours = parseInt(timeWindow.replace('h',''))`, `hoursToSubtract` is `23.98`
when `hours === 24` and `hours` otherwise, and the resolved instant is
`now.getTime() - hoursToSubtract * 60 * 60 * 1000` (exact rational
milliseconds).  `none` models the cases where no `since` parameter is set
(falsy `timeWindow`) or the parse yields `NaN`. -/
def resolveSinceMs (timeWindow : String) (nowMs : ℤ) : Option ℚ :=
  if timeWindow = "" then none
  else
    match parseIntJS (replaceFirstH timeWindow.toList) with
    | none => none
    | some hours =>
      let hoursToSubtract : ℚ := if hours = 24 then 23.98 else (hours : ℚ)
      some ((nowMs : ℚ) - hoursToSubtract * 60 * 60 * 1000)

/-- `new Date(v).getTime()` for a finite numeric `v`: ECMAScript `TimeClip`
truncates a fractional time value toward zero (`Int.div` is the
toward-zero division). -/
def jsGetTime (q : ℚ) : ℤ := q.num.tdiv (q.den : ℤ)

/-- `params.since = pastTime.getTime().toString()` (part_000 line 128):
the `since` parameter handed to `fetchTradeData` is the decimal string of the
resolved epoch-millisecond instant. -/
def loadDataSinceParam (timeWindow : String) (nowMs : ℤ) : Option String :=
  (resolveSinceMs timeWindow nowMs).map (fun pastMs => toString (jsGetTime pastMs))

/-- How `fetchTradeData` handles a string-valued `params.since`
(part_001 lines 289-297): the string is appended to the query parameters
unchanged.  The `Date` branch (which would convert via `toISOString`) is never
exercised by the dashboard, which always passes a string. -/
def fetchTradeDataSinceQuery (since : String) : String := since

/-- The `since` value actually carried by the request
`GET /api/prices/trades?symbol=...&since=...` issued for a dashboard refresh:
the parameter construction in `loadData` composed with the
string pass-through in `fetchTradeData`. -/
def dashboardSinceQueryValue (timeWindow : String) (nowMs : ℤ) : Option String :=
  (loadDataSinceParam timeWindow nowMs).map fetchTradeDataSinceQuery

/-- Modelled from the spec: an ISO-8601 date-time string, as produced by
`Date.prototype.toISOString` (e.g. `2025-10-11T12:00:00.000Z`), always
contains the `T` date/time separator and `-` date separators.  This necessary
condition is the comparison point for the requirement of the spec that `since` be
an ISO-8601 string; a bare decimal epoch-millisecond string satisfies
neither. -/
def hasIso8601Separators (s : String) : Bool :=
  s.toList.contains 'T' && s.toList.contains '-'

/-- The dashboard view state owned by the `Home` component
(part_000 lines 62-76), restricted to the fields the refresh loop touches.
`refreshTimerActive` models whether the 30-second `setInterval` of the
mount effect (part_000 lines 175-185) is currently installed. -/
structure DashState where
  priceData : List ChartPoint
  livePrice : Option ℚ
  recentTrades : List Trade
  isLoading : Bool
  error : Option String
  marketStats : MarketStats
  isRefreshing : Bool
  refreshTimerActive : Bool
deriving DecidableEq

/-- The initial `marketStats` state (part_000 lines 69-75): zero-filled. -/
def initialMarketStats : MarketStats :=
  { volume24h := 0, priceChange24h := 0, priceChangePercent24h := JSNum.fin 0,
    high24h := 0, low24h := 0 }

/-- The initial state of the component (part_000 lines 62-76). -/
def initialState : DashState :=
  { priceData := [], livePrice := none, recentTrades := [], isLoading := true,
    error := none, marketStats := initialMarketStats, isRefreshing := false,
    refreshTimerActive := false }

/-- The error message recorded by the catch block of `loadData` (part_000 line 167). -/
def loadErrorMessage : String := "Failed to load market data. Please try again later."

/-- The effect of the `setMarketStats` call made (or skipped) by
`calculateMarketStats(trades)`: on empty input the function returns without
updating state, otherwise it stores the freshly computed stats. -/
def applyMarketStats (s : DashState) (trades : List Trade) : DashState :=
  match calculateMarketStats trades with
  | none => s
  | some st => { s with marketStats := st }

/-- How the awaited fetches of one `loadData` invocation turn out.
`success trades live`: the trade response has a `trades` field (possibly an
empty array, which is truthy) and the live-price fetch succeeds.
`missingTrades live`: the trade response lacks a `trades` field.
`tradeFetchError`: `fetchTradeData` (or anything before it) throws.
`liveFetchError trades`: the trade fetch succeeds but `fetchLivePrice`
throws. -/
inductive FetchOutcome where
  | success (trades : List Trade) (live : ℚ)
  | missingTrades (live : ℚ)
  | tradeFetchError
  | liveFetchError (trades : List Trade)
deriving DecidableEq

/-- The synchronous prefix of `loadData` before its first await
(part_000 lines 114-132): sets `isRefreshing` and issues the fetch.
The issued request itself is characterised by `dashboardSinceQueryValue`. -/
def startLoad (s : DashState) : DashState := { s with isRefreshing := true }

/-- The continuation of `loadData` after its awaits resolve
(part_000 lines 134-171): on a response with a `trades` field it stores the
raw trades, recomputes stats, rebuilds the chart series and stores the live
price; on a thrown error it records `loadErrorMessage`; the `finally` block
clears `isRefreshing` and `isLoading`.  No branch consults which request is
the most recently issued one, and no branch touches the refresh timer. -/
def finishLoad (s : DashState) (o : FetchOutcome) : DashState :=
  match o with
  | FetchOutcome.success trades live =>
    let s1 := { s with recentTrades := trades }
    let s2 := applyMarketStats s1 trades
    let s3 := { s2 with priceData := buildSeries trades }
    let s4 := { s3 with livePrice := some live }
    { s4 with isRefreshing := false, isLoading := false }
  | FetchOutcome.missingTrades live =>
    { s with livePrice := some live, isRefreshing := false, isLoading := false }
  | FetchOutcome.tradeFetchError =>
    { s with error := some loadErrorMessage, isRefreshing := false, isLoading := false }
  | FetchOutcome.liveFetchError trades =>
    let s1 := { s with recentTrades := trades }
    let s2 := applyMarketStats s1 trades
    let s3 := { s2 with priceData := buildSeries trades }
    { s3 with error := some loadErrorMessage, isRefreshing := false, isLoading := false }

/-- One complete, uninterleaved `loadData` cycle. -/
def loadData (s : DashState) (o : FetchOutcome) : DashState :=
  finishLoad (startLoad s) o

/-- Installing the 30-second refresh interval on mount
(part_000 lines 175-182). -/
def mountRefreshTimer (s : DashState) : DashState := { s with refreshTimerActive := true }

/-- The `clearInterval` in the effect cleanup (part_000 line 184), the only place
the refresh timer is ever cleared. -/
def unmountRefreshTimer (s : DashState) : DashState := { s with refreshTimerActive := false }

/-! Helper lemmas about the stable sorts. -/

theorem sortDesc_perm (l : List Trade) : (sortDesc l).Perm l :=
  List.perm_insertionSort descByTime l

theorem sortDesc_sorted (l : List Trade) : (sortDesc l).Sorted descByTime :=
  List.sorted_insertionSort descByTime l

/-- When no two trades of the list share a timestamp, the descending sort is
strictly sorted. -/
theorem sortDesc_strictSorted (l : List Trade)
    (hnd : (l.map Trade.timestamp).Nodup) :
    (sortDesc l).Sorted strictDescByTime := by
  have hs : (sortDesc l).Pairwise descByTime := sortDesc_sorted l
  have hsymm : ∀ {a b : Trade}, a.timestamp ≠ b.timestamp → b.timestamp ≠ a.timestamp :=
    fun h => h.symm
  have hl : l.Pairwise (fun a b => a.timestamp ≠ b.timestamp) :=
    List.pairwise_map.mp hnd
  have hne : (sortDesc l).Pairwise (fun a b => a.timestamp ≠ b.timestamp) :=
    ((sortDesc_perm l).pairwise_iff hsymm).mpr hl
  exact (hs.and hne).imp (fun h => lt_of_le_of_ne h.1 (Ne.symm h.2))

/-- A strictly sorted permutation is unique: two permutation-equivalent trade
lists with pairwise distinct timestamps have the same descending sort. -/
theorem sortDesc_eq_of_perm (l₁ l₂ : List Trade) (hp : l₁.Perm l₂)
    (hnd : (l₁.map Trade.timestamp).Nodup) : sortDesc l₁ = sortDesc l₂ := by
  have hnd₂ : (l₂.map Trade.timestamp).Nodup := ((hp.map Trade.timestamp).nodup_iff).mp hnd
  exact List.eq_of_perm_of_sorted
    ((sortDesc_perm l₁).trans (hp.trans (sortDesc_perm l₂).symm))
    (sortDesc_strictSorted l₁ hnd) (sortDesc_strictSorted l₂ hnd₂)

/-- Permutation-equivalent lists are empty together. -/
theorem perm_isEmpty_eq {α : Type} (l₁ l₂ : List α) (hp : l₁.Perm l₂) :
    l₁.isEmpty = l₂.isEmpty := by
  cases l₁ with
  | nil =>
    have h2 : l₂ = [] := hp.symm.eq_nil
    rw [h2]
  | cons a t =>
    cases l₂ with
    | nil => exact absurd hp.eq_nil (by simp)
    | cons b u => rfl

/-! Theorems for the frozen claims. -/

/-- C2 (counterexample): `calculateMarketStats` is not invariant under
reordering when two trades share a timestamp.  With two trades at the same
instant, the stable descending sort keeps the input order, so which price is
"latest" and which "earliest" depends on the input order and `priceChange24h`
flips sign. -/
theorem calculateMarketStats_perm_counterexample :
    List.Perm
      [({ timestamp := 0, price := 100, volume := 1, isBuy := true } : Trade),
       { timestamp := 0, price := 200, volume := 1, isBuy := false }]
      [({ timestamp := 0, price := 200, volume := 1, isBuy := false } : Trade),
       { timestamp := 0, price := 100, volume := 1, isBuy := true }] ∧
    calculateMarketStats
      [({ timestamp := 0, price := 100, volume := 1, isBuy := true } : Trade),
       { timestamp := 0, price := 200, volume := 1, isBuy := false }] ≠
    calculateMarketStats
      [({ timestamp := 0, price := 200, volume := 1, isBuy := false } : Trade),
       { timestamp := 0, price := 100, volume := 1, isBuy := true }] := by
  constructor
  · decide
  · norm_num [calculateMarketStats, sortDesc, List.insertionSort, List.orderedInsert,
      descByTime, jsDiv, jsMul100, List.max?, List.min?]

/-- C2 (amended): for trade lists whose timestamps are pairwise distinct,
`calculateMarketStats` is invariant under any reordering of the input:
every permutation yields the identical stats record. -/
theorem calculateMarketStats_perm_invariant (l₁ l₂ : List Trade)
    (hp : l₁.Perm l₂) (hnd : (l₁.map Trade.timestamp).Nodup) :
    calculateMarketStats l₁ = calculateMarketStats l₂ := by
  unfold calculateMarketStats
  rw [perm_isEmpty_eq l₁ l₂ hp, sortDesc_eq_of_perm l₁ l₂ hp hnd]

/-- Witness for `calculateMarketStats_perm_invariant` at a concrete pair of
permuted lists with distinct timestamps. -/
theorem calculateMarketStats_perm_invariant_witness :
    List.Perm
      [({ timestamp := 0, price := 100, volume := 1, isBuy := true } : Trade),
       { timestamp := 1000, price := 200, volume := 2, isBuy := false }]
      [({ timestamp := 1000, price := 200, volume := 2, isBuy := false } : Trade),
       { timestamp := 0, price := 100, volume := 1, isBuy := true }] ∧
    ([({ timestamp := 0, price := 100, volume := 1, isBuy := true } : Trade),
      { timestamp := 1000, price := 200, volume := 2, isBuy := false }].map
        Trade.timestamp).Nodup ∧
    calculateMarketStats
      [({ timestamp := 0, price := 100, volume := 1, isBuy := true } : Trade),
       { timestamp := 1000, price := 200, volume := 2, isBuy := false }] =
    calculateMarketStats
      [({ timestamp := 1000, price := 200, volume := 2, isBuy := false } : Trade),
       { timestamp := 0, price := 100, volume := 1, isBuy := true }] :=
  ⟨by decide, by decide,
    calculateMarketStats_perm_invariant _ _ (by decide) (by decide)⟩

/-- C9: for every input trade list in any order, the series builder produces
a chart-point list whose length equals the input length and whose timestamps
are monotonically non-decreasing. -/
theorem buildSeries_length_and_sorted (trades : List Trade) :
    (buildSeries trades).length = trades.length ∧
    (buildSeries trades).Pairwise (fun p q => p.time ≤ q.time) := by
  constructor
  · unfold buildSeries sortAsc
    rw [List.length_map, (List.perm_insertionSort ascByTime trades).length_eq]
  · unfold buildSeries
    refine List.pairwise_map.mpr ?_
    exact (List.sorted_insertionSort ascByTime trades).imp (fun h => h)

/-- C4: when the fetch of a refresh cycle fails, the previously displayed
stats, chart series and raw trades are left unchanged, the error message is
recorded for display, and the periodic refresh timer is not cleared. -/
theorem loadData_failure_frame (s : DashState) :
    (loadData s FetchOutcome.tradeFetchError).marketStats = s.marketStats ∧
    (loadData s FetchOutcome.tradeFetchError).priceData = s.priceData ∧
    (loadData s FetchOutcome.tradeFetchError).recentTrades = s.recentTrades ∧
    (loadData s FetchOutcome.tradeFetchError).error = some loadErrorMessage ∧
    (loadData s FetchOutcome.tradeFetchError).refreshTimerActive = s.refreshTimerActive :=
  ⟨rfl, rfl, rfl, rfl, rfl⟩

/-- C5: on the empty trade list `calculateMarketStats` returns the absent
value (`none`, the bare `return;` of the source), not zero-filled stats, and
a refresh cycle that commits an empty trade list leaves the prior-cycle
stats of the caller untouched. -/
theorem calculateMarketStats_empty_absent (s : DashState) (live : ℚ) :
    calculateMarketStats [] = none ∧
    (loadData s (FetchOutcome.success [] live)).marketStats = s.marketStats :=
  ⟨rfl, rfl⟩

/-- C6: for every instant `now`, the selector resolves the `24h` window to
exactly `now` minus `23.98` hours (`23.98 * 3600000` milliseconds, not 24
hours) and every other selectable window (`1h`, `4h`, `8h`, `12h`) to
exactly `now` minus its literal hour count. -/
theorem resolveSince_window_exact (nowMs : ℤ) :
    resolveSinceMs "24h" nowMs = some ((nowMs : ℚ) - 23.98 * 3600000) ∧
    resolveSinceMs "1h" nowMs = some ((nowMs : ℚ) - 1 * 3600000) ∧
    resolveSinceMs "4h" nowMs = some ((nowMs : ℚ) - 4 * 3600000) ∧
    resolveSinceMs "8h" nowMs = some ((nowMs : ℚ) - 8 * 3600000) ∧
    resolveSinceMs "12h" nowMs = some ((nowMs : ℚ) - 12 * 3600000) := by
  have h24 : parseIntJS (replaceFirstH "24h".toList) = some 24 := rfl
  have h1 : parseIntJS (replaceFirstH "1h".toList) = some 1 := rfl
  have h4 : parseIntJS (replaceFirstH "4h".toList) = some 4 := rfl
  have h8 : parseIntJS (replaceFirstH "8h".toList) = some 8 := rfl
  have h12 : parseIntJS (replaceFirstH "12h".toList) = some 12 := rfl
  refine ⟨?_, ?_, ?_, ?_, ?_⟩ <;>
  · simp only [resolveSinceMs, h24, h1, h4, h8, h12]
    norm_num
    exact fun hc => absurd hc (by decide)

/-- C7: the `since` value carried by the trade request issued for a dashboard
refresh (window `24h`, `now` = 1700000000000) is the bare decimal
epoch-millisecond string `"1699913672000"` — all digits, without the `T` and
`-` separators every ISO-8601 date-time string (as produced by
`Date.prototype.toISOString`) contains.  The parameter is therefore not
ISO-8601 encoded. -/
theorem sinceParam_epoch_millis_not_iso8601 :
    dashboardSinceQueryValue "24h" 1700000000000 = some "1699913672000" ∧
    "1699913672000".toList.all Char.isDigit = true ∧
    hasIso8601Separators "1699913672000" = false := by
  refine ⟨?_, by decide, by decide⟩
  have hres : resolveSinceMs "24h" 1700000000000 = some (1699913672000 : ℚ) := by
    have h24 : parseIntJS (replaceFirstH "24h".toList) = some 24 := rfl
    simp only [resolveSinceMs, h24]
    norm_num
    exact fun hc => absurd hc (by decide)
  have hget : jsGetTime (1699913672000 : ℚ) = 1699913672000 := by decide
  simp only [dashboardSinceQueryValue, loadDataSinceParam, hres, Option.map_some',
    hget, fetchTradeDataSinceQuery]
  rfl

/-- C8 (counterexample): when `earliestPrice` is zero the code does not
produce a single documented value.  A lone zero-priced trade yields
`priceChangePercent24h = NaN` (from `0/0`), while a zero earliest price
followed by a higher price yields `Infinity` — two different outcomes,
neither of which is the absent value. -/
theorem priceChangePercent_zero_divisor_counterexample :
    (calculateMarketStats
        [({ timestamp := 0, price := 0, volume := 1, isBuy := true } : Trade)]).map
      MarketStats.priceChangePercent24h = some JSNum.nan ∧
    (calculateMarketStats
        [({ timestamp := 0, price := 0, volume := 1, isBuy := true } : Trade),
         { timestamp := 1000, price := 100, volume := 1, isBuy := true }]).map
      MarketStats.priceChangePercent24h = some JSNum.posInf ∧
    JSNum.nan ≠ JSNum.posInf := by
  refine ⟨?_, ?_, by decide⟩ <;>
    norm_num [calculateMarketStats, sortDesc, List.insertionSort, List.orderedInsert,
      descByTime, jsDiv, jsMul100, List.max?, List.min?]

/-- C8 (amended): for every non-empty trade list, `priceChangePercent24h`
equals the finite value `priceChange / earliestPrice * 100` whenever
`earliestPrice ≠ 0`; when `earliestPrice = 0` the result follows IEEE-754
division semantics — `Infinity` for a positive change, `-Infinity` for a
negative change, and `NaN` for a zero change. -/
theorem priceChangePercent_division_semantics (trades : List Trade)
    (h : trades ≠ []) :
    ∃ st, calculateMarketStats trades = some st ∧
      (earliestPriceOf trades ≠ 0 →
        st.priceChangePercent24h =
          JSNum.fin (st.priceChange24h / earliestPriceOf trades * 100)) ∧
      (earliestPriceOf trades = 0 →
        (0 < st.priceChange24h → st.priceChangePercent24h = JSNum.posInf) ∧
        (st.priceChange24h < 0 → st.priceChangePercent24h = JSNum.negInf) ∧
        (st.priceChange24h = 0 → st.priceChangePercent24h = JSNum.nan)) := by
  have hne : trades.isEmpty = false := by
    cases trades with
    | nil => exact absurd rfl h
    | cons a t => rfl
  simp only [calculateMarketStats, hne, Bool.false_eq_true, if_false]
  refine ⟨_, rfl, ?_, ?_⟩
  · intro he
    simp only [earliestPriceOf] at he
    simp only [jsDiv, if_neg he, jsMul100, earliestPriceOf]
  · intro he
    simp only [earliestPriceOf] at he
    rw [he]
    refine ⟨fun hc => ?_, fun hc => ?_, fun hc => ?_⟩
    · rw [jsDiv, if_pos rfl, if_pos hc]
      rfl
    · rw [jsDiv, if_pos rfl, if_neg (not_lt.mpr (le_of_lt hc)), if_pos hc]
      rfl
    · have hc' : ((sortDesc trades).headD defaultTrade).price - 0 = 0 := hc
      rw [hc']
      rfl

/-- Witness for `priceChangePercent_division_semantics` at a concrete
two-trade list with nonzero earliest price. -/
theorem priceChangePercent_division_semantics_witness :
    ([({ timestamp := 0, price := 100, volume := 1, isBuy := true } : Trade),
      { timestamp := 1000, price := 150, volume := 1, isBuy := false }] ≠
        ([] : List Trade)) ∧
    (∃ st, calculateMarketStats
        [({ timestamp := 0, price := 100, volume := 1, isBuy := true } : Trade),
         { timestamp := 1000, price := 150, volume := 1, isBuy := false }] = some st ∧
      (earliestPriceOf
          [({ timestamp := 0, price := 100, volume := 1, isBuy := true } : Trade),
           { timestamp := 1000, price := 150, volume := 1, isBuy := false }] ≠ 0 →
        st.priceChangePercent24h =
          JSNum.fin (st.priceChange24h /
            earliestPriceOf
              [({ timestamp := 0, price := 100, volume := 1, isBuy := true } : Trade),
               { timestamp := 1000, price := 150, volume := 1, isBuy := false }] * 100)) ∧
      (earliestPriceOf
          [({ timestamp := 0, price := 100, volume := 1, isBuy := true } : Trade),
           { timestamp := 1000, price := 150, volume := 1, isBuy := false }] = 0 →
        (0 < st.priceChange24h → st.priceChangePercent24h = JSNum.posInf) ∧
        (st.priceChange24h < 0 → st.priceChangePercent24h = JSNum.negInf) ∧
        (st.priceChange24h = 0 → st.priceChangePercent24h = JSNum.nan))) :=
  ⟨by simp, priceChangePercent_division_semantics _ (by simp)⟩

/-- C10: for a singleton trade list with nonzero price the latest and
earliest trades coincide, so the price change is `0` and the percentage
change is the finite value `0`. -/
theorem calculateMarketStats_singleton (t : Trade) (h : t.price ≠ 0) :
    ∃ st, calculateMarketStats [t] = some st ∧
      st.priceChange24h = 0 ∧ st.priceChangePercent24h = JSNum.fin 0 := by
  refine ⟨_, rfl, ?_, ?_⟩
  · simp [sortDesc, List.insertionSort, List.orderedInsert]
  · simp [sortDesc, List.insertionSort, List.orderedInsert, jsDiv, jsMul100, h]

/-- Witness for `calculateMarketStats_singleton` at a concrete trade. -/
theorem calculateMarketStats_singleton_witness :
    (({ timestamp := 0, price := 100, volume := 1, isBuy := true } : Trade).price ≠ 0) ∧
    (∃ st, calculateMarketStats
        [({ timestamp := 0, price := 100, volume := 1, isBuy := true } : Trade)] = some st ∧
      st.priceChange24h = 0 ∧ st.priceChangePercent24h = JSNum.fin 0) :=
  ⟨by norm_num, calculateMarketStats_singleton _ (by norm_num)⟩

/-- Field-level description of the success branch of `finishLoad`: the raw
trades, chart series and live price are replaced, the stats become the
freshly computed ones when present (prior stats otherwise), and the error
and refresh-timer fields pass through untouched. -/
theorem finishLoad_success_fields (s : DashState) (trades : List Trade) (live : ℚ) :
    (finishLoad s (FetchOutcome.success trades live)).recentTrades = trades ∧
    (finishLoad s (FetchOutcome.success trades live)).priceData = buildSeries trades ∧
    (finishLoad s (FetchOutcome.success trades live)).error = s.error ∧
    (finishLoad s (FetchOutcome.success trades live)).refreshTimerActive = s.refreshTimerActive ∧
    (finishLoad s (FetchOutcome.success trades live)).marketStats =
      (calculateMarketStats trades).getD s.marketStats := by
  cases h : calculateMarketStats trades with
  | none => simp [finishLoad, applyMarketStats, h]
  | some st => simp [finishLoad, applyMarketStats, h]

/-- C3 (counterexample): a refresh cycle that completes successfully after a
prior failure does not clear the recorded error message — `loadData` has no
`setError(null)` on its success path, so the error stays set. -/
theorem loadData_success_error_retained_counterexample :
    (loadData { initialState with error := some loadErrorMessage }
        (FetchOutcome.success
          [{ timestamp := 0, price := 100, volume := 1, isBuy := true }] 100)).error =
      some loadErrorMessage ∧
    some loadErrorMessage ≠ (none : Option String) :=
  ⟨(finishLoad_success_fields _ _ _).2.2.1, by decide⟩

/-- C3 (amended): a successful refresh cycle replaces the stats, the chart
series, the raw trade cache and the live price wholesale, but leaves any
previously recorded error message in place (it is never cleared). -/
theorem loadData_success_swaps_without_clearing_error (s : DashState)
    (trades : List Trade) (live : ℚ) (st : MarketStats)
    (h : calculateMarketStats trades = some st) :
    (loadData s (FetchOutcome.success trades live)).recentTrades = trades ∧
    (loadData s (FetchOutcome.success trades live)).marketStats = st ∧
    (loadData s (FetchOutcome.success trades live)).priceData = buildSeries trades ∧
    (loadData s (FetchOutcome.success trades live)).livePrice = some live ∧
    (loadData s (FetchOutcome.success trades live)).error = s.error := by
  have hf := finishLoad_success_fields (startLoad s) trades live
  refine ⟨hf.1, ?_, hf.2.1, rfl, hf.2.2.1⟩
  show (finishLoad (startLoad s) (FetchOutcome.success trades live)).marketStats = st
  rw [hf.2.2.2.2, h]
  rfl

/-- Witness for `loadData_success_swaps_without_clearing_error` at a concrete
state with a recorded error and a concrete one-trade fetch result. -/
theorem loadData_success_swaps_without_clearing_error_witness :
    calculateMarketStats
      [({ timestamp := 0, price := 100, volume := 1, isBuy := true } : Trade)] =
      some { volume24h := 1, priceChange24h := 0,
             priceChangePercent24h := JSNum.fin 0, high24h := 100, low24h := 100 } ∧
    ((loadData { initialState with error := some loadErrorMessage }
        (FetchOutcome.success
          [({ timestamp := 0, price := 100, volume := 1, isBuy := true } : Trade)] 100)).recentTrades =
        [({ timestamp := 0, price := 100, volume := 1, isBuy := true } : Trade)] ∧
      (loadData { initialState with error := some loadErrorMessage }
        (FetchOutcome.success
          [({ timestamp := 0, price := 100, volume := 1, isBuy := true } : Trade)] 100)).marketStats =
        { volume24h := 1, priceChange24h := 0,
          priceChangePercent24h := JSNum.fin 0, high24h := 100, low24h := 100 } ∧
      (loadData { initialState with error := some loadErrorMessage }
        (FetchOutcome.success
          [({ timestamp := 0, price := 100, volume := 1, isBuy := true } : Trade)] 100)).priceData =
        buildSeries [({ timestamp := 0, price := 100, volume := 1, isBuy := true } : Trade)] ∧
      (loadData { initialState with error := some loadErrorMessage }
        (FetchOutcome.success
          [({ timestamp := 0, price := 100, volume := 1, isBuy := true } : Trade)] 100)).livePrice =
        some 100 ∧
      (loadData { initialState with error := some loadErrorMessage }
        (FetchOutcome.success
          [({ timestamp := 0, price := 100, volume := 1, isBuy := true } : Trade)] 100)).error =
        ({ initialState with error := some loadErrorMessage } : DashState).error) :=
  ⟨by norm_num [calculateMarketStats, sortDesc, List.insertionSort, List.orderedInsert,
      jsDiv, jsMul100, List.max?, List.min?],
   loadData_success_swaps_without_clearing_error _ _ _ _
     (by norm_num [calculateMarketStats, sortDesc, List.insertionSort, List.orderedInsert,
       jsDiv, jsMul100, List.max?, List.min?])⟩

/-- C1 (code divergence): with two overlapping refresh cycles — the first
issued for window `1h`, the second (most recent) for `24h` — where the `24h`
response resolves first and the stale `1h` response resolves last, the
commit phase has no staleness check, so the superseded `1h` result is
committed and overwrites the `24h` data: last response wins, not last
request. -/
theorem stale_response_overwrites_newer_result :
    (finishLoad (startLoad (startLoad (mountRefreshTimer initialState)))
        (FetchOutcome.success
          [{ timestamp := 1000, price := 200, volume := 2, isBuy := false }] 200)).marketStats.high24h
      = 200 ∧
    (finishLoad
        (finishLoad (startLoad (startLoad (mountRefreshTimer initialState)))
          (FetchOutcome.success
            [{ timestamp := 1000, price := 200, volume := 2, isBuy := false }] 200))
        (FetchOutcome.success
          [{ timestamp := 1000, price := 100, volume := 1, isBuy := true }] 100)).recentTrades =
      [{ timestamp := 1000, price := 100, volume := 1, isBuy := true }] ∧
    (finishLoad
        (finishLoad (startLoad (startLoad (mountRefreshTimer initialState)))
          (FetchOutcome.success
            [{ timestamp := 1000, price := 200, volume := 2, isBuy := false }] 200))
        (FetchOutcome.success
          [{ timestamp := 1000, price := 100, volume := 1, isBuy := true }] 100)).marketStats.high24h
      = 100 ∧
    ([({ timestamp := 1000, price := 100, volume := 1, isBuy := true } : Trade)] ≠
      [({ timestamp := 1000, price := 200, volume := 2, isBuy := false } : Trade)]) := by
  have h24 : calculateMarketStats
      [({ timestamp := 1000, price := 200, volume := 2, isBuy := false } : Trade)] =
      some { volume24h := 2, priceChange24h := 0, priceChangePercent24h := JSNum.fin 0,
             high24h := 200, low24h := 200 } := by
    norm_num [calculateMarketStats, sortDesc, List.insertionSort, List.orderedInsert,
      jsDiv, jsMul100, List.max?, List.min?]
  have h1 : calculateMarketStats
      [({ timestamp := 1000, price := 100, volume := 1, isBuy := true } : Trade)] =
      some { volume24h := 1, priceChange24h := 0, priceChangePercent24h := JSNum.fin 0,
             high24h := 100, low24h := 100 } := by
    norm_num [calculateMarketStats, sortDesc, List.insertionSort, List.orderedInsert,
      jsDiv, jsMul100, List.max?, List.min?]
  refine ⟨?_, (finishLoad_success_fields _ _ _).1, ?_, by decide⟩
  · rw [(finishLoad_success_fields _ _ _).2.2.2.2, h24]
    rfl
  · rw [(finishLoad_success_fields _ _ _).2.2.2.2, h1]
    rfl
